import Mathlib

/-!
Shallow embedding of the transaction-checker service (`src/main.go`).

The program is an HTTP ingestion handler feeding two bounded channels
(`networkQueue`, `mirrorQueue`), a pool of `hederaWorker`s consuming the
network queue, a pool of `mirrorWorker`s consuming the mirror queue, and a
result sink `sendAndLogToFile` that POSTs each outcome to a shadowing API and
appends it to a log file.

External collaborators (the Hedera node, the mirror-node HTTP API, the
shadowing API, the log file) are modelled as oracle parameters: each embedded
function takes the collaborator's answer for the one call it makes as an
explicit argument.  Queues are lists (head = front), and the effects of one
loop iteration of each worker are modelled as a state-transformer step.
-/

/-- `TransactionPayload` from `src/main.go` lines 20-29: the verification
request as decoded from the ingestion JSON body.  Field names follow the Go
struct; `BlockNumber` is Go `int` (modelled as `Int`),
`EthereumTransactionHash` is `*string` (modelled as `Option String`). -/
structure TransactionPayload where
  TxID : String
  TxType : String
  BlockNumber : Int
  AddressTo : String
  TxTimestamp : String
  Timestamp : String
  EthereumTransactionHash : Option String
  HederaTransactionHash : String
deriving DecidableEq, Repr

/-- `TransactionStatus` from `src/main.go` lines 31-35: the payload plus a
`status` string and an `error` string (Go's zero value `""` when no error was
set, matching the `omitempty` field that is only assigned when the worker
passed a non-nil error). -/
structure TransactionStatus extends TransactionPayload where
  Status : String
  Error : String
deriving DecidableEq, Repr

/-! ## Identifier canonicalizer

`convertTransactionIdForMirrorNode` (`src/main.go` lines 352-358) applies the
Go regexp `@([^.]*)\.` with `ReplaceAllStringFunc`, rewriting each leftmost
non-overlapping match `@xxx.` (an `@`, then the maximal run of non-dot
characters, then the first following dot) to `-xxx-`.

We embed the replacement as a single left-to-right scan over the character
list.  The scanner state is `none` while copying, and `some acc` after an
unconsumed `@` whose group has collected the (dot-free) characters `acc`; a
dot closes the match (emitting `-acc-`), and end-of-input with an open group
emits the original characters unchanged, which is exactly the regexp's
behaviour since a match requires a terminating dot. -/

/-- One left-to-right pass of the `@([^.]*)\.` → `-$1-` replacement.
`st = none`: copy mode; `st = some acc`: inside a candidate match started by
an `@`, with `acc` the group characters read so far (no dots). -/
def convStep : List Char → Option (List Char) → List Char
  | [], none => []
  | [], some acc => '@' :: acc
  | c :: rest, none =>
    if c = '@' then convStep rest (some []) else c :: convStep rest none
  | c :: rest, some acc =>
    if c = '.' then '-' :: acc ++ '-' :: convStep rest none
    else convStep rest (some (acc ++ [c]))

/-- `convertTransactionIdForMirrorNode` from `src/main.go` lines 352-358. -/
def convertTransactionIdForMirrorNode (input : String) : String :=
  ⟨convStep input.data none⟩

/-! ## Ingestion handler -/

/-- The three HTTP responses `handleCheckTransaction` can produce:
405 "Invalid request method", 400 "Invalid request payload",
202 "OK". -/
inductive HandlerResult where
  | methodNotAllowed
  | badRequest
  | accepted
deriving DecidableEq, Repr

/-- Sink-side effects of `sendAndLogToFile`: the outcomes POSTed to the
shadowing API (`sendToShadowingApi`), the outcomes appended to the log file
(`logToFile`), and the `log.Printf` failure messages. -/
structure SinkState where
  apiCalls : List TransactionStatus
  fileWrites : List TransactionStatus
  loggedErrors : List String
deriving DecidableEq, Repr

/-- Whole-pipeline state: the two channels (lists, head = front of the
channel), the sink effects, and the trace of payloads for which the mirror
backend `checkTransactionOnMirrorNode` has been invoked. -/
structure PipelineState where
  networkQueue : List TransactionPayload
  mirrorQueue : List TransactionPayload
  sink : SinkState
  secondaryAttempts : List TransactionPayload
deriving DecidableEq, Repr

/-- `handleCheckTransaction` from `src/main.go` lines 132-167.  `method` is
`r.Method`; `decoded` is the result of `json.NewDecoder(r.Body).Decode`.
The age-based routing (lines 144-161) is commented out in the source, so a
successfully decoded payload is always sent to `mirrorQueue` (line 163). -/
def handleCheckTransaction (method : String)
    (decoded : Except String TransactionPayload)
    (s : PipelineState) : HandlerResult × PipelineState :=
  if method ≠ ("POST") then (.methodNotAllowed, s)
  else
    match decoded with
    | .error _ => (.badRequest, s)
    | .ok payload =>
      (.accepted, { s with mirrorQueue := s.mirrorQueue ++ [payload] })

/-- `tooLate` from `src/main.go` lines 360-364 (referenced only from the
commented-out routing).  Times are instants in nanoseconds (Go
`time.Time`/`time.Duration` arithmetic on a common clock); `time.Since(t)` is
`now - t` and `3*time.Minute` is `180000000000` ns. -/
def tooLate (now timestamp txTimestamp : Int) : Bool :=
  let timeDifference := now - timestamp
  let adjustedTxTimestamp := txTimestamp + timeDifference
  decide (adjustedTxTimestamp - txTimestamp > (180000000000 : Int))

/-! ## Result sink -/

/-- The `TransactionStatus` literal built at `src/main.go` lines 265-271:
the payload embedded unchanged, `Status` set, and `Error` set only when the
worker passed a non-nil error. -/
def mkTransactionStatus (payload : TransactionPayload) (status : String)
    (err : Option String) : TransactionStatus :=
  { toTransactionPayload := payload
    Status := status
    Error := match err with | none => "" | some e => e }

/-- `sendAndLogToFile` from `src/main.go` lines 264-287.  `sendOk` is whether
`sendToShadowingApi` succeeded and `writeOk` whether `logToFile` succeeded
(both collaborator behaviours).  `json.Marshal` of this struct (strings, an
int, an optional string) cannot fail, so the early-return at line 274 is
unreachable and not modelled.  Both the POST and the file append are
attempted unconditionally; a failure of either is only recorded in
`loggedErrors` (the Go `log.Printf` calls at lines 280 and 285), and the
function returns no error to its caller. -/
def sendAndLogToFile (payload : TransactionPayload) (status : String)
    (err : Option String) (sendOk writeOk : Bool) (s : SinkState) : SinkState :=
  let ts := mkTransactionStatus payload status err
  let s1 : SinkState :=
    { s with
      apiCalls := s.apiCalls ++ [ts]
      loggedErrors :=
        if sendOk then s.loggedErrors
        else s.loggedErrors ++ ["Error sending the transaction"] }
  { s1 with
    fileWrites := s1.fileWrites ++ [ts]
    loggedErrors :=
      if writeOk then s1.loggedErrors
      else s1.loggedErrors ++ ["Failed to log transaction"] }

/-! ## Worker steps -/

/-- One loop iteration of `hederaWorker` (`src/main.go` lines 169-182) when
the network queue is non-empty: dequeue the front payload; `r` is the result
of `getTransactionReceiptFromHederaNode` for it (`.ok status` carries
`status.String()`).  On error the original payload is sent to `mirrorQueue`
and no outcome is produced; on success `sendAndLogToFile` is called with the
status and a nil error. -/
def hederaWorkerStep (r : Except String String) (sendOk writeOk : Bool)
    (s : PipelineState) : PipelineState :=
  match s.networkQueue with
  | [] => s
  | payload :: rest =>
    match r with
    | .error _ =>
      { s with networkQueue := rest, mirrorQueue := s.mirrorQueue ++ [payload] }
    | .ok status =>
      { s with networkQueue := rest
               sink := sendAndLogToFile payload status none sendOk writeOk s.sink }

/-- The error message built by `fmt.Errorf` at `src/main.go` line 192
(typo "fgrom" as in the source). -/
def mirrorFailureMessage (e : String) : String :=
  "error getting status fgrom node, transaction failed or not executed (mirror node): " ++ e

/-- One loop iteration of `mirrorWorker` (`src/main.go` lines 184-198) when
the mirror queue is non-empty: dequeue the front payload; `r` is the value
returned by `checkTransactionOnMirrorNode` for it (the dequeue registers one
secondary-backend attempt).  On error `sendAndLogToFile` is called with
status `""` and the wrapped error; on success with the returned status and a
nil error.  Neither branch re-enqueues anything. -/
def mirrorWorkerStep (r : Except String String) (sendOk writeOk : Bool)
    (s : PipelineState) : PipelineState :=
  match s.mirrorQueue with
  | [] => s
  | payload :: rest =>
    { s with
      mirrorQueue := rest
      secondaryAttempts := s.secondaryAttempts ++ [payload]
      sink :=
        match r with
        | .error e =>
          sendAndLogToFile payload ("") (some (mirrorFailureMessage e)) sendOk writeOk s.sink
        | .ok status => sendAndLogToFile payload status none sendOk writeOk s.sink }

/-! ## Mirror-node lookup -/

/-- One record of the mirror node's JSON `transactions` array
(`src/main.go` lines 219-222). -/
structure MirrorTx where
  result : String
  transaction_id : String
deriving DecidableEq, Repr

/-- Behaviour of one `client.Get`: a transport error, or a response with a
status code, a body-read result (`io.ReadAll`, outer `Except`), and inside it
a JSON-unmarshal result (`json.Unmarshal` into `Response`, inner `Except`,
already abstracted to the decoded `transactions` array). -/
inductive HttpGetResult where
  | netErr (e : String)
  | resp (code : Nat) (readResult : Except String (Except String (List MirrorTx)))
deriving Repr

/-- What a call to `checkTransactionOnMirrorNode` does: return a status,
return an error, or terminate the whole process (`log.Fatalf`,
`src/main.go` line 246). -/
inductive MirrorLookupResult where
  | ok (status : String)
  | err (e : String)
  | fatalExit (msg : String)
deriving DecidableEq, Repr

/-- The result-selection loop at `src/main.go` lines 253-260: `result` starts
as `""` and is set from the first array record whose `transaction_id` equals
the queried id, after which the loop breaks. -/
def findMatchingResult (txs : List MirrorTx) (tid : String) : String :=
  match txs with
  | [] => ""
  | tx :: rest => if tx.transaction_id = tid then tx.result else findMatchingResult rest tid

/-- `checkTransactionOnMirrorNode` from `src/main.go` lines 218-262.
`baseUrl` is `mirrorNodeUrl`, `httpGet` the HTTP collaborator, `txId` the
payload's `TxID`.  The id is canonicalized, the GET goes to
`{baseUrl}/api/v1/transactions/{id}`, a non-200 code is an error, a body-read
failure hits `log.Fatalf` (process exit), an unmarshal failure is an error,
and otherwise the first matching record's `result` (or `""`) is returned. -/
def checkTransactionOnMirrorNode (baseUrl : String)
    (httpGet : String → HttpGetResult) (txId : String) : MirrorLookupResult :=
  let transactionId := convertTransactionIdForMirrorNode txId
  let url := baseUrl ++ "/api/v1/transactions/" ++ transactionId
  match httpGet url with
  | .netErr e => .err e
  | .resp code readResult =>
    if code = 200 then
      match readResult with
      | .error e => .fatalExit ("Error reading response body: " ++ e)
      | .ok (.error e) => .err e
      | .ok (.ok txs) => .ok (findMatchingResult txs transactionId)
    else
      .err ("received non-200 response: " ++ toString code)

/-! ## Auxiliary definitions used only to state properties -/

/-- A transaction identifier in the primary backend's notation
`account@seconds.nanos` (spec §4.4): an account part of digits and dots, an
`@`, a dot-free run of digits (the seconds), a dot, and digits (the nanos). -/
def ValidTransactionId (s : String) : Prop :=
  ∃ acct secs nanos : List Char,
    s.data = acct ++ '@' :: (secs ++ '.' :: nanos) ∧
    (∀ c ∈ acct, c.isDigit ∨ c = '.') ∧
    (∀ c ∈ secs, c.isDigit) ∧
    (∀ c ∈ nanos, c.isDigit)

/-- Number of output characters still owed by a scanner state: an open
candidate match will emit its `@` and the collected group characters. -/
def convStateLen : Option (List Char) → Nat
  | none => 0
  | some acc => acc.length + 1

/-- A concrete well-formed request whose transaction is 30 s old at receipt
(instants in ns: submitted at 1690000000 s, received at 1690000030 s). -/
def freshPayload : TransactionPayload :=
  { TxID := "0.0.2@1690000000.123456789"
    TxType := "transfer"
    BlockNumber := 17
    AddressTo := "0x00000000000000000000000000000000000004d2"
    TxTimestamp := "2023-07-22T04:26:40Z"
    Timestamp := "2023-07-22T04:27:10Z"
    EthereumTransactionHash := none
    HederaTransactionHash := "a1b2c3" }

/-- A decodable payload with an empty `transactionId` and unparsable
timestamp strings. -/
def emptyIdPayload : TransactionPayload :=
  { TxID := ""
    TxType := ""
    BlockNumber := 0
    AddressTo := ""
    TxTimestamp := "not-a-timestamp"
    Timestamp := "still-not-a-timestamp"
    EthereumTransactionHash := none
    HederaTransactionHash := "" }

/-- The empty pipeline state. -/
def emptyState : PipelineState := ⟨[], [], ⟨[], [], []⟩, []⟩

/-! ## Lemmas about the canonicalizer scan -/

theorem convStep_length (l : List Char) :
    ∀ st, (convStep l st).length = l.length + convStateLen st := by
  induction l with
  | nil =>
    intro st
    cases st <;> simp [convStep, convStateLen]
  | cons c rest ih =>
    intro st
    cases st with
    | none =>
      by_cases h : c = '@' <;> simp [convStep, h, ih, convStateLen]
    | some acc =>
      by_cases h : c = '.' <;> simp [convStep, h, ih, convStateLen] <;> try omega

theorem convStep_no_at (l : List Char) (h : '@' ∉ l) : convStep l none = l := by
  induction l with
  | nil => rfl
  | cons c rest ih =>
    have hc : c ≠ '@' := fun hc => h (hc ▸ List.mem_cons_self c rest)
    have hr : '@' ∉ rest := fun hr => h (List.mem_cons_of_mem c hr)
    simp [convStep, hc, ih hr]

theorem convStep_copy (a r : List Char) (h : '@' ∉ a) :
    convStep (a ++ r) none = a ++ convStep r none := by
  induction a with
  | nil => rfl
  | cons c rest ih =>
    have hc : c ≠ '@' := fun hc => h (hc ▸ List.mem_cons_self c rest)
    have hr : '@' ∉ rest := fun hr => h (List.mem_cons_of_mem c hr)
    simp [convStep, hc, ih hr]

theorem convStep_group (secs : List Char) (h : '.' ∉ secs) :
    ∀ acc nanos, convStep (secs ++ '.' :: nanos) (some acc) =
      '-' :: (acc ++ secs) ++ '-' :: convStep nanos none := by
  induction secs with
  | nil =>
    intro acc nanos
    simp [convStep]
  | cons c rest ih =>
    intro acc nanos
    have hc : c ≠ '.' := fun hc => h (hc ▸ List.mem_cons_self c rest)
    have hr : '.' ∉ rest := fun hr => h (List.mem_cons_of_mem c hr)
    simp [convStep, hc, ih hr]

/-- Evaluation of the scan on a well-formed primary-notation identifier:
the account is copied, the `@`-to-first-dot segment becomes `-secs-`, and
the digit tail is copied. -/
theorem convStep_valid (acct secs nanos : List Char)
    (hacct : ∀ c ∈ acct, c.isDigit ∨ c = '.')
    (hsecs : ∀ c ∈ secs, c.isDigit)
    (hnanos : ∀ c ∈ nanos, c.isDigit) :
    convStep (acct ++ '@' :: (secs ++ '.' :: nanos)) none =
      acct ++ '-' :: secs ++ '-' :: nanos := by
  have hat : '@' ∉ acct := by
    intro hmem
    rcases hacct '@' hmem with h | h
    · exact absurd h (by decide)
    · exact absurd h (by decide)
  have hdot : '.' ∉ secs := by
    intro hmem
    exact absurd (hsecs '.' hmem) (by decide)
  have hatn : '@' ∉ nanos := by
    intro hmem
    exact absurd (hnanos '@' hmem) (by decide)
  rw [convStep_copy acct _ hat]
  have hstep : convStep ('@' :: (secs ++ '.' :: nanos)) none =
      convStep (secs ++ '.' :: nanos) (some []) := by
    simp [convStep]
  rw [hstep, convStep_group secs hdot [] nanos, convStep_no_at nanos hatn]
  simp

/-- C3: `convertTransactionIdForMirrorNode` is a pure total function (it is a
Lean `def`), idempotent on every valid primary-notation identifier, maps
`"0.0.2@1690000000.123456789"` to `"0.0.2-1690000000-123456789"`, and leaves
any string already in dash form (no `@` character) unchanged. -/
theorem convert_idempotent_on_valid :
    (∀ s : String, ValidTransactionId s →
      convertTransactionIdForMirrorNode (convertTransactionIdForMirrorNode s) =
        convertTransactionIdForMirrorNode s) ∧
    convertTransactionIdForMirrorNode ("0.0.2@1690000000.123456789") =
      ("0.0.2-1690000000-123456789") ∧
    (∀ s : String, '@' ∉ s.data → convertTransactionIdForMirrorNode s = s) := by
  have hfix : ∀ s : String, '@' ∉ s.data → convertTransactionIdForMirrorNode s = s := by
    intro s h
    cases s with
    | mk data => exact congrArg String.mk (convStep_no_at data h)
  refine ⟨?_, rfl, hfix⟩
  intro s hs
  rcases hs with ⟨acct, secs, nanos, hdata, hacct, hsecs, hnanos⟩
  have hconv : convertTransactionIdForMirrorNode s =
      ⟨acct ++ '-' :: secs ++ '-' :: nanos⟩ := by
    unfold convertTransactionIdForMirrorNode
    rw [hdata, convStep_valid acct secs nanos hacct hsecs hnanos]
  rw [hconv]
  apply hfix
  intro hmem
  simp only [String.data] at hmem
  have h4 : ('@' ∈ acct) ∨ '@' = '-' ∨ ('@' ∈ secs) ∨ ('@' ∈ nanos) := by
    simp only [List.mem_append, List.mem_cons] at hmem
    tauto
  rcases h4 with h | h | h | h
  · rcases hacct '@' h with h' | h' <;> exact absurd h' (by decide)
  · exact absurd h (by decide)
  · exact absurd (hsecs '@' h) (by decide)
  · exact absurd (hnanos '@' h) (by decide)

/-- Witness for C3: the valid identifier `"0.0.2@1690000000.123456789"`
satisfies the hypotheses and the idempotence equation concretely. -/
theorem convert_idempotent_on_valid_witness :
    convertTransactionIdForMirrorNode
        (convertTransactionIdForMirrorNode ("0.0.2@1690000000.123456789")) =
      convertTransactionIdForMirrorNode ("0.0.2@1690000000.123456789") :=
  convert_idempotent_on_valid.1 ("0.0.2@1690000000.123456789")
    ⟨("0.0.2").data, ("1690000000").data, ("123456789").data,
      by decide, by decide, by decide, by decide⟩

/-- C9: the canonicalizer is length-preserving on every input string: each
replaced segment `@xxx.` and its replacement `-xxx-` have the same length,
and everything else is copied. -/
theorem convert_length_preserving (s : String) :
    (convertTransactionIdForMirrorNode s).length = s.length := by
  cases s with
  | mk data =>
    have h := convStep_length data none
    simpa [convertTransactionIdForMirrorNode, String.length, convStateLen] using h

/-- C1 is false on the code: the age-based routing is commented out.
`freshPayload` was submitted 30 s before receipt (well within the 3-minute
threshold: `tooLate` at the corresponding instants, now = receipt
= 1690000030 s, submission = 1690000000 s, is `false`), yet the handler
enqueues it onto the mirror queue and the network queue stays empty. -/
theorem routing_age_counterexample :
    handleCheckTransaction ("POST") (.ok freshPayload) emptyState =
      (.accepted, ⟨[], [freshPayload], ⟨[], [], []⟩, []⟩) ∧
    tooLate 1690000030000000000 1690000030000000000 1690000000000000000 = false := by
  exact ⟨rfl, rfl⟩

/-- C1 amended: every request accepted by the ingestion handler is enqueued
onto the secondary (mirror) queue, regardless of the transaction's age; the
primary (network) queue is never touched by the handler. -/
theorem handler_routes_all_accepted_to_mirror (p : TransactionPayload)
    (s : PipelineState) :
    handleCheckTransaction ("POST") (.ok p) s =
      (.accepted, { s with mirrorQueue := s.mirrorQueue ++ [p] }) ∧
    ((handleCheckTransaction ("POST") (.ok p) s).2).networkQueue = s.networkQueue := by
  exact ⟨rfl, rfl⟩

/-- C5 is false on the code: the input validation is commented out.
`emptyIdPayload` has an empty `transactionId` and unparsable timestamp
strings, yet the handler accepts it (202) and enqueues it onto the mirror
queue instead of rejecting it. -/
theorem validation_counterexample :
    emptyIdPayload.TxID = ("") ∧
    handleCheckTransaction ("POST") (.ok emptyIdPayload) emptyState =
      (.accepted, ⟨[], [emptyIdPayload], ⟨[], [], []⟩, []⟩) := by
  exact ⟨rfl, rfl⟩

/-- C5 amended: the ingestion endpoint performs no `transactionId` or
timestamp validation.  It rejects only non-POST methods (405) and bodies
that fail JSON decoding (400); every successfully decoded payload —
including one with an empty `transactionId` or unparsable timestamps — is
accepted and enqueued onto the mirror queue. -/
theorem handler_validates_only_json :
    (∀ method decoded s, method ≠ ("POST") →
      handleCheckTransaction method decoded s = (.methodNotAllowed, s)) ∧
    (∀ e s, handleCheckTransaction ("POST") (.error e) s = (.badRequest, s)) ∧
    (∀ p s, handleCheckTransaction ("POST") (.ok p) s =
      (.accepted, { s with mirrorQueue := s.mirrorQueue ++ [p] })) := by
  refine ⟨?_, fun e s => rfl, fun p s => rfl⟩
  intro method decoded s h
  simp [handleCheckTransaction, h]

/-- Witness for C5's amended theorem: a GET with an undecodable body is
rejected with 405 and leaves the state untouched. -/
theorem handler_validates_only_json_witness :
    handleCheckTransaction ("GET") (.error ("unexpected end of JSON input"))
        emptyState = (.methodNotAllowed, emptyState) :=
  handler_validates_only_json.1 ("GET") (.error ("unexpected end of JSON input"))
    emptyState (by decide)

/-- C2: when the primary backend fails for the dequeued request, the primary
worker produces no terminal outcome (sink unchanged) and re-enqueues the
original, unmodified request onto the mirror queue; processing that queue
entry performs exactly one secondary-backend attempt, and — whatever the
secondary result `r2`, success or failure — nothing is ever re-enqueued on
either queue, so no second attempt can occur. -/
theorem primary_failure_exactly_one_fallback (p : TransactionPayload)
    (e : String) (r2 : Except String String) (so1 wo1 so2 wo2 : Bool)
    (nq : List TransactionPayload) (sink : SinkState)
    (att : List TransactionPayload) :
    hederaWorkerStep (.error e) so1 wo1 ⟨p :: nq, [], sink, att⟩ =
      ⟨nq, [p], sink, att⟩ ∧
    (mirrorWorkerStep r2 so2 wo2
        (hederaWorkerStep (.error e) so1 wo1 ⟨p :: nq, [], sink, att⟩)).secondaryAttempts =
      att ++ [p] ∧
    (mirrorWorkerStep r2 so2 wo2
        (hederaWorkerStep (.error e) so1 wo1 ⟨p :: nq, [], sink, att⟩)).mirrorQueue = [] ∧
    (mirrorWorkerStep r2 so2 wo2
        (hederaWorkerStep (.error e) so1 wo1 ⟨p :: nq, [], sink, att⟩)).networkQueue = nq := by
  refine ⟨rfl, ?_, ?_, ?_⟩ <;> cases r2 <;> rfl

/-- C7: the result sink always attempts both delivery steps — the shadowing
API POST and the audit-log append each happen whatever the other's outcome —
and no delivery failure flows back to the calling worker: a worker step's
queue contents and attempt trace are independent of the delivery results
`sendOk`/`writeOk` (the sink function returns no error channel at all). -/
theorem sink_attempts_both_never_fails_caller :
    (∀ p status err so wo s,
      (sendAndLogToFile p status err so wo s).apiCalls =
        s.apiCalls ++ [mkTransactionStatus p status err] ∧
      (sendAndLogToFile p status err so wo s).fileWrites =
        s.fileWrites ++ [mkTransactionStatus p status err]) ∧
    (∀ r so wo so' wo' s,
      (mirrorWorkerStep r so wo s).mirrorQueue =
        (mirrorWorkerStep r so' wo' s).mirrorQueue ∧
      (mirrorWorkerStep r so wo s).networkQueue =
        (mirrorWorkerStep r so' wo' s).networkQueue ∧
      (mirrorWorkerStep r so wo s).secondaryAttempts =
        (mirrorWorkerStep r so' wo' s).secondaryAttempts) ∧
    (∀ r so wo so' wo' s,
      (hederaWorkerStep r so wo s).networkQueue =
        (hederaWorkerStep r so' wo' s).networkQueue ∧
      (hederaWorkerStep r so wo s).mirrorQueue =
        (hederaWorkerStep r so' wo' s).mirrorQueue) := by
  refine ⟨?_, ?_, ?_⟩
  · intro p status err so wo s
    constructor <;> simp [sendAndLogToFile]
  · intro r so wo so' wo' s
    rcases s with ⟨nq, mq, sink, att⟩
    cases mq <;> cases r <;> exact ⟨rfl, rfl, rfl⟩
  · intro r so wo so' wo' s
    rcases s with ⟨nq, mq, sink, att⟩
    cases nq <;> cases r <;> exact ⟨rfl, rfl⟩

/-- C8: outcomes embed the request unchanged.  `mkTransactionStatus` returns
the submitted payload verbatim, only adding `Status`/`Error`; the fallback
path re-enqueues the very payload that was dequeued; and on every terminal
path (primary success, secondary success, secondary failure) the outcome
handed to the sink embeds exactly the dequeued payload. -/
theorem request_fields_carried_unchanged :
    (∀ p status err,
      (mkTransactionStatus p status err).toTransactionPayload = p) ∧
    (∀ p nq mq sink att e so wo,
      hederaWorkerStep (.error e) so wo ⟨p :: nq, mq, sink, att⟩ =
        ⟨nq, mq ++ [p], sink, att⟩) ∧
    (∀ p nq mq sink att status so wo,
      (hederaWorkerStep (.ok status) so wo ⟨p :: nq, mq, sink, att⟩).sink.apiCalls =
        sink.apiCalls ++ [mkTransactionStatus p status none]) ∧
    (∀ p nq mq sink att status so wo,
      (mirrorWorkerStep (.ok status) so wo ⟨nq, p :: mq, sink, att⟩).sink.apiCalls =
        sink.apiCalls ++ [mkTransactionStatus p status none]) ∧
    (∀ p nq mq sink att e so wo,
      (mirrorWorkerStep (.error e) so wo ⟨nq, p :: mq, sink, att⟩).sink.apiCalls =
        sink.apiCalls ++
          [mkTransactionStatus p ("") (some (mirrorFailureMessage e))]) := by
  exact ⟨fun p status err => rfl, fun p nq mq sink att e so wo => rfl,
    fun p nq mq sink att status so wo => rfl,
    fun p nq mq sink att status so wo => rfl,
    fun p nq mq sink att e so wo => rfl⟩

/-! ## Lemmas about the mirror-node result selection -/

theorem findMatchingResult_eq_find (txs : List MirrorTx) (tid : String) :
    findMatchingResult txs tid =
      ((txs.find? (fun tx => tx.transaction_id == tid)).map MirrorTx.result).getD ("") := by
  induction txs with
  | nil => rfl
  | cons tx rest ih =>
    by_cases h : tx.transaction_id = tid <;>
      simp [findMatchingResult, List.find?_cons, h, ih]

theorem findMatchingResult_no_match (txs : List MirrorTx) (tid : String)
    (h : ∀ tx ∈ txs, tx.transaction_id ≠ tid) :
    findMatchingResult txs tid = ("") := by
  induction txs with
  | nil => rfl
  | cons tx rest ih =>
    have hx : tx.transaction_id ≠ tid := h tx (List.mem_cons_self tx rest)
    simp only [findMatchingResult, if_neg hx]
    exact ih (fun t ht => h t (List.mem_cons_of_mem tx ht))

theorem findMatchingResult_append (l1 rest : List MirrorTx) (tid : String)
    (h : ∀ tx ∈ l1, tx.transaction_id ≠ tid) :
    findMatchingResult (l1 ++ rest) tid = findMatchingResult rest tid := by
  induction l1 with
  | nil => rfl
  | cons tx l ih =>
    have hx : tx.transaction_id ≠ tid := h tx (List.mem_cons_self tx l)
    simp only [List.cons_append, findMatchingResult, if_neg hx]
    exact ih (fun t ht => h t (List.mem_cons_of_mem tx ht))

/-- C4 is right about the intended behaviour but the code aborts: when the
mirror node answers 200 and reading the response body fails, the lookup hits
`log.Fatalf` (src/main.go line 246), terminating the process with no
`VerificationOutcome`, instead of returning the error to the worker. -/
theorem mirror_read_failure_aborts :
    checkTransactionOnMirrorNode ("http://127.0.0.1:5551")
        (fun _ => .resp 200 (.error ("read tcp: connection reset by peer")))
        ("0.0.2@1690000000.123456789") =
      .fatalExit ("Error reading response body: read tcp: connection reset by peer") := by
  exact rfl

/-- C6: the lookup canonicalizes the identifier and issues the GET at
`{base}/api/v1/transactions/{id}`; any non-200 status is an error; a parsed
200 response yields the `result` field of the first record whose
`transaction_id` equals the canonicalized identifier exactly, and an empty
status — not an error — when no record matches. -/
theorem mirror_lookup_contract (baseUrl txId : String)
    (f : String → HttpGetResult) :
    (∀ code rr, code ≠ 200 →
      f (baseUrl ++ "/api/v1/transactions/" ++ convertTransactionIdForMirrorNode txId) =
          .resp code rr →
      checkTransactionOnMirrorNode baseUrl f txId =
        .err ("received non-200 response: " ++ toString code)) ∧
    (∀ txs,
      f (baseUrl ++ "/api/v1/transactions/" ++ convertTransactionIdForMirrorNode txId) =
          .resp 200 (.ok (.ok txs)) →
      checkTransactionOnMirrorNode baseUrl f txId =
        .ok (((txs.find? (fun tx =>
            tx.transaction_id == convertTransactionIdForMirrorNode txId)).map
          MirrorTx.result).getD (""))) ∧
    (∀ txs,
      f (baseUrl ++ "/api/v1/transactions/" ++ convertTransactionIdForMirrorNode txId) =
          .resp 200 (.ok (.ok txs)) →
      (∀ tx ∈ txs, tx.transaction_id ≠ convertTransactionIdForMirrorNode txId) →
      checkTransactionOnMirrorNode baseUrl f txId = .ok ("")) := by
  refine ⟨?_, ?_, ?_⟩
  · intro code rr hcode hf
    simp only [checkTransactionOnMirrorNode, hf, if_neg hcode]
  · intro txs hf
    simp only [checkTransactionOnMirrorNode, hf, if_pos rfl, if_true]
    rw [findMatchingResult_eq_find]
  · intro txs hf hnone
    simp only [checkTransactionOnMirrorNode, hf, if_pos rfl, if_true]
    rw [findMatchingResult_no_match _ _ hnone]

/-- Witness for C6: a 404 answer makes the lookup return the non-200
error. -/
theorem mirror_lookup_contract_witness :
    checkTransactionOnMirrorNode ("http://127.0.0.1:5551")
        (fun _ => .resp 404 (.ok (.ok [])))
        ("0.0.2@1690000000.123456789") =
      .err ("received non-200 response: " ++ toString 404) :=
  (mirror_lookup_contract ("http://127.0.0.1:5551") ("0.0.2@1690000000.123456789")
      (fun _ => .resp 404 (.ok (.ok [])))).1
    404 (.ok (.ok [])) (by decide) rfl

/-- C10: when the parsed 200 response is `l1 ++ tx :: l2` with no match in
`l1`, `tx` matching, and at least one further match in `l2`, the lookup
returns `tx`'s `result` — the first match in array order — ignoring the
later matches. -/
theorem mirror_first_match_wins (baseUrl txId : String)
    (f : String → HttpGetResult) (l1 l2 : List MirrorTx) (tx : MirrorTx) :
    f (baseUrl ++ "/api/v1/transactions/" ++ convertTransactionIdForMirrorNode txId) =
        .resp 200 (.ok (.ok (l1 ++ tx :: l2))) →
    (∀ t ∈ l1, t.transaction_id ≠ convertTransactionIdForMirrorNode txId) →
    tx.transaction_id = convertTransactionIdForMirrorNode txId →
    (∃ t ∈ l2, t.transaction_id = convertTransactionIdForMirrorNode txId) →
    checkTransactionOnMirrorNode baseUrl f txId = .ok tx.result := by
  intro hf hl1 htx _
  simp only [checkTransactionOnMirrorNode, hf, if_pos rfl, if_true]
  rw [findMatchingResult_append _ _ _ hl1]
  simp only [findMatchingResult, if_pos htx]

/-- Witness for C10: two records share the queried id; the first one's
`result` is returned. -/
theorem mirror_first_match_wins_witness :
    checkTransactionOnMirrorNode ("http://127.0.0.1:5551")
        (fun _ => .resp 200 (.ok (.ok
          [⟨("SUCCESS"), ("0.0.2-1690000000-123456789")⟩,
           ⟨("DUPLICATE"), ("0.0.2-1690000000-123456789")⟩])))
        ("0.0.2@1690000000.123456789") = .ok ("SUCCESS") :=
  mirror_first_match_wins ("http://127.0.0.1:5551") ("0.0.2@1690000000.123456789")
    (fun _ => .resp 200 (.ok (.ok
      [⟨("SUCCESS"), ("0.0.2-1690000000-123456789")⟩,
       ⟨("DUPLICATE"), ("0.0.2-1690000000-123456789")⟩])))
    [] [⟨("DUPLICATE"), ("0.0.2-1690000000-123456789")⟩]
    ⟨("SUCCESS"), ("0.0.2-1690000000-123456789")⟩
    rfl (by simp) (by decide)
    ⟨⟨("DUPLICATE"), ("0.0.2-1690000000-123456789")⟩, by simp, by decide⟩
